import Mathlib

/-!
Verification of the scan orchestration and result-aggregation engine of the
repository's two scanner scripts:

* `src/scripts/python/scan_claude_skills.py` — Claude skills security scanner
  (CLI wrapper around the external `skill_scanner` library).
* `src/scripts/python/scan_mcp_servers.py` — MCP server security scanner
  (orchestration, transport dispatch, result normalization, aggregation).

The Python code is shallowly embedded: dictionaries become structures,
`try`/`except` blocks become `Except`-valued functions or explicit outcome
parameters, and the external scanner library calls (the "Analyzer Engine",
an external collaborator) are modelled as explicit outcome values supplied
per server.
-/

namespace SkillScan

/-- Severity levels used by the skill scanner, as enumerated in
`scan_claude_skills.py` (`get_severity_emoji`, lines 50-60). -/
inductive Severity
  | CRITICAL
  | HIGH
  | MEDIUM
  | LOW
  | INFO
  | SAFE
deriving DecidableEq, Repr

/-- Modelled from the spec: the external `skill_scanner` library's report field
`critical_count` (the library is not under `src/`); per the spec it counts the
recorded findings of CRITICAL severity. -/
def critical_count (findings : List Severity) : Nat :=
  findings.countP (· = Severity.CRITICAL)

/-- Modelled from the spec: the external `skill_scanner` library's report field
`high_count`; per the spec it counts the recorded findings of HIGH severity. -/
def high_count (findings : List Severity) : Nat :=
  findings.countP (· = Severity.HIGH)

/-- Embeds `scan_claude_skills.py` line 429:
`has_critical_or_high = report.critical_count > 0 or report.high_count > 0`. -/
def has_critical_or_high (criticalCount highCount : Nat) : Bool :=
  decide (criticalCount > 0) || decide (highCount > 0)

/-- Embeds `scan_claude_skills.py` lines 431-436: `main` returns 1 when
`--fail-on-findings` was requested and a critical/high finding exists,
otherwise 0 (the success path). -/
def fail_exit_code (failOnFindings : Bool) (hasCriticalOrHigh : Bool) : Nat :=
  if failOnFindings && hasCriticalOrHigh then 1 else 0

end SkillScan

namespace MCPScan

/-- A raw severity value attached to a finding by an analyzer
(`scan_mcp_servers.py` line 233 probes `hasattr(finding.severity, 'value')`):
either an enum-like object carrying a `.value` string, or a bare value whose
`str(...)` rendering is the given string. -/
inductive RawSeverity
  | enum (value : String)
  | raw (str : String)
deriving DecidableEq, Repr

/-- A raw finding as produced by the Analyzer Engine (external collaborator);
fields that `_process_tool_results` probes with `hasattr` are `Option`s.
`severity` is always present (only its `.value` attribute is probed). -/
structure RawFinding where
  severity : RawSeverity
  category : Option String
  description : Option String
  summary : Option String
  threat_names : Option (List String)
deriving DecidableEq, Repr

/-- A raw per-analyzer sub-result (`scan_mcp_servers.py` lines 240-245);
`is_safe` and `findings` are probed with `hasattr`. -/
structure RawAnalyzerResult where
  is_safe : Option Bool
  findings : Option (List RawFinding)
deriving DecidableEq, Repr

/-- A raw per-tool scan result returned by the external scanner library
(`scanner.scan_stdio_server_tools` / `scanner.scan_remote_server_tools`). -/
structure RawToolResult where
  tool_name : String
  tool_description : String
  is_safe : Bool
  status : String
  findings : List RawFinding
  analyzer_results : Option (List (String × RawAnalyzerResult))
deriving DecidableEq, Repr

/-- The normalized finding dict built by `_process_tool_results`
(lines 232-237). -/
structure FindingData where
  severity : String
  category : Option String
  description : String
  threat_names : List String
deriving DecidableEq, Repr

/-- The normalized per-analyzer dict built by `_process_tool_results`
(lines 242-245). -/
structure AnalyzerData where
  is_safe : Bool
  findings_count : Nat
deriving DecidableEq, Repr

/-- The normalized per-tool dict built by `_process_tool_results`
(lines 221-228). -/
structure ToolData where
  name : String
  description : String
  is_safe : Bool
  status : String
  findings : List FindingData
  analyzer_results : List (String × AnalyzerData)
deriving DecidableEq, Repr

/-- Embeds `scan_mcp_servers.py` line 233:
`finding.severity.value if hasattr(finding.severity, 'value') else str(finding.severity)`. -/
def normalizeSeverity : RawSeverity → String
  | .enum v => v
  | .raw s => s

/-- Embeds `scan_mcp_servers.py` lines 232-237, the normalization of one raw
finding. Line 235 reads `finding.description if hasattr(finding, 'description')
else finding.summary`; accessing an absent `summary` raises `AttributeError`,
modelled as the `.error` case (Python's exception message text). -/
def normalizeFinding (f : RawFinding) : Except String FindingData :=
  match f.description with
  | some d =>
      .ok { severity := normalizeSeverity f.severity
            category := f.category
            description := d
            threat_names := f.threat_names.getD [] }
  | none =>
      match f.summary with
      | some s =>
          .ok { severity := normalizeSeverity f.severity
                category := f.category
                description := s
                threat_names := f.threat_names.getD [] }
      | none => .error "no attribute summary"

/-- Embeds `scan_mcp_servers.py` lines 241-245: per-analyzer sub-verdict with
`hasattr` defaults (`is_safe` defaults to `True`, findings count to 0). -/
def processAnalyzerResult (a : RawAnalyzerResult) : AnalyzerData :=
  { is_safe := a.is_safe.getD true
    findings_count := (a.findings.map List.length).getD 0 }

/-- Embeds the body of the loop of `_process_tool_results` (lines 220-247) for
one tool result; an exception while normalizing a finding aborts the whole
call (the Python loop raises through). -/
def processToolResult (t : RawToolResult) : Except String ToolData := do
  let fds ← t.findings.mapM normalizeFinding
  .ok { name := t.tool_name
        description := t.tool_description
        is_safe := t.is_safe
        status := t.status
        findings := fds
        analyzer_results :=
          (t.analyzer_results.getD []).map (fun p => (p.1, processAnalyzerResult p.2)) }

/-- Embeds `MCPSecurityScanner._process_tool_results` (lines 216-249). -/
def process_tool_results (ts : List RawToolResult) : Except String (List ToolData) :=
  ts.mapM processToolResult

/-- Embeds Python `str.startswith`: character-level prefix test. -/
def pyStartsWith (s pre : String) : Bool :=
  pre.data.isPrefixOf s.data

/-- Fuel-driven worker for `pyReplace`; the fuel is an upper bound on the input
length, and each step consumes at least one input character, so the `0` case
is never reached when started with `l.length` fuel. -/
def pyReplaceAux (pat rep : List Char) : Nat → List Char → List Char
  | 0, l => l
  | _ + 1, [] => []
  | fuel + 1, c :: cs =>
      if pat.isPrefixOf (c :: cs) && !pat.isEmpty then
        rep ++ pyReplaceAux pat rep fuel ((c :: cs).drop pat.length)
      else
        c :: pyReplaceAux pat rep fuel cs

/-- Embeds Python `str.replace(pat, rep)` for a nonempty pattern: every
occurrence of `pat` is replaced, scanning left to right without overlap. -/
def pyReplace (s pat rep : String) : String :=
  ⟨pyReplaceAux pat.data rep.data s.data.length s.data⟩

/-- Embeds `scan_mcp_servers.py` lines 181-191: the bearer token extracted from
a server's header map (`None` when no `Authorization` header is present or its
value does not start with `"Bearer "`); the token handed to `Auth` is
`auth_header.replace("Bearer ", "")`. Returns the bearer token of the `Auth`
object, or `none` for `auth = None`. -/
def extract_bearer_auth (headers : List (String × String)) : Option String :=
  match headers.lookup "Authorization" with
  | none => none
  | some auth_header =>
      if pyStartsWith auth_header "Bearer " then
        some (pyReplace auth_header "Bearer " "")
      else
        none

/-- A server entry of the `mcpServers` mapping (`.mcp.json`); every field the
code reads via `.get`/`[...]` is optional (`none` = key absent). -/
structure ServerConfig where
  type_ : Option String
  command : Option String
  args : Option (List String)
  url : Option String
  headers : Option (List (String × String))
deriving DecidableEq, Repr

/-- The per-server result dict. The stdio/http/skipped/error paths build dicts
with different key sets; keys a path omits are modelled by the stated default
values (`server_type := none` on the error path, echo fields `command`, `args`,
`url` defaulting when the path does not set them). -/
structure ServerResult where
  server_type : Option String := none
  command : Option String := none
  args : List String := []
  url : Option String := none
  status : String
  tools : List ToolData
  error : Option String
deriving DecidableEq, Repr

/-- Embeds `MCPSecurityScanner.scan_stdio_server` (lines 106-157). The external
call `scanner.scan_stdio_server_tools` is modelled by the `outcome` parameter
(`.error msg` = the call raised an exception whose `str` is `msg`). A missing
`command` key makes `server_config["command"]` (line 132) raise
`KeyError('command')`, whose `str` is `"'command'"`; any exception inside the
`try` is caught and recorded as status `"failed"` (lines 152-154). -/
def scan_stdio_server (outcome : Except String (List RawToolResult))
    (cfg : ServerConfig) : ServerResult :=
  let base : ServerResult :=
    { server_type := some "stdio"
      command := cfg.command
      args := cfg.args.getD []
      status := "pending"
      tools := []
      error := none }
  match cfg.command with
  | none => { base with status := "failed", error := some "'command'" }
  | some _ =>
      match outcome with
      | .error e => { base with status := "failed", error := some e }
      | .ok raws =>
          match process_tool_results raws with
          | .error e => { base with status := "failed", error := some e }
          | .ok tools => { base with status := "completed", tools := tools }

/-- Embeds `MCPSecurityScanner.scan_http_server` (lines 159-214). The external
call `scanner.scan_remote_server_tools` is modelled by `outcome`; a missing
`url` key makes `server_config["url"]` (line 195) raise `KeyError('url')`,
whose `str` is `"'url'"`; any exception inside the `try` is caught and
recorded as status `"failed"` (lines 209-211). -/
def scan_http_server (outcome : Except String (List RawToolResult))
    (cfg : ServerConfig) : ServerResult :=
  let base : ServerResult :=
    { server_type := some "http"
      url := cfg.url
      status := "pending"
      tools := []
      error := none }
  match cfg.url with
  | none => { base with status := "failed", error := some "'url'" }
  | some _ =>
      match outcome with
      | .error e => { base with status := "failed", error := some e }
      | .ok raws =>
          match process_tool_results raws with
          | .error e => { base with status := "failed", error := some e }
          | .ok tools => { base with status := "completed", tools := tools }

/-- The summary counters dict (`scan_mcp_servers.py` lines 80-88). -/
structure Summary where
  total_servers : Nat
  scanned_servers : Nat
  failed_servers : Nat
  total_tools : Nat
  safe_tools : Nat
  unsafe_tools : Nat
  total_findings : Nat
deriving DecidableEq, Repr

/-- The summary dict's initial value (all counters 0, lines 80-88). -/
def summaryInit : Summary :=
  { total_servers := 0, scanned_servers := 0, failed_servers := 0
    total_tools := 0, safe_tools := 0, unsafe_tools := 0, total_findings := 0 }

/-- The summary dict as the ordered key/value list that `save_results` writes
to JSON — exactly the keys of the dict literal at lines 80-88. -/
def summary_pairs (s : Summary) : List (String × Nat) :=
  [("total_servers", s.total_servers),
   ("scanned_servers", s.scanned_servers),
   ("failed_servers", s.failed_servers),
   ("total_tools", s.total_tools),
   ("safe_tools", s.safe_tools),
   ("unsafe_tools", s.unsafe_tools),
   ("total_findings", s.total_findings)]

/-- Embeds the summary-update block of `scan_all_servers` (lines 283-296):
`"completed"` results bump the scanned/tool/finding counters, `"failed"`
results bump `failed_servers`, anything else changes nothing here. -/
def update_summary (s : Summary) (r : ServerResult) : Summary :=
  if r.status = "completed" then
    { s with
      scanned_servers := s.scanned_servers + 1
      total_tools := s.total_tools + r.tools.length
      safe_tools := s.safe_tools + r.tools.countP (fun t => t.is_safe)
      unsafe_tools := s.unsafe_tools + r.tools.countP (fun t => !t.is_safe)
      total_findings := s.total_findings + (r.tools.map (fun t => t.findings.length)).sum }
  else if r.status = "failed" then
    { s with failed_servers := s.failed_servers + 1 }
  else
    s

/-- The `"skipped"` result dict built for an unsupported transport type
(lines 273-278). -/
def skippedResult (serverType : String) : ServerResult :=
  { server_type := some serverType
    status := "skipped"
    tools := []
    error := some ("Unsupported server type: " ++ serverType) }

/-- The `"error"` result dict built when the dispatch block itself raises
(lines 300-304); note it carries no `server_type` key. -/
def errorResult (msg : String) : ServerResult :=
  { status := "error"
    tools := []
    error := some msg }

/-- One server of a run: its name and config from the `mcpServers` mapping,
the outcome of the (single) external scanner-library call its strategy would
make, and `dispatchExc = some msg` when the dispatch block itself raises an
exception outside the strategy functions (the `except` at lines 298-305;
e.g. a malformed non-dict entry). -/
structure ServerEntry where
  name : String
  config : ServerConfig
  outcome : Except String (List RawToolResult)
  dispatchExc : Option String

/-- The transport dispatch of `scan_all_servers` (lines 264-278): the branch on
`server_type = server_config.get("type", "unknown")` selecting the stdio
strategy, the http strategy, or the skipped record. -/
def dispatch (e : ServerEntry) : ServerResult :=
  if e.config.type_.getD "unknown" = "stdio" then
    scan_stdio_server e.outcome e.config
  else if e.config.type_.getD "unknown" = "http" then
    scan_http_server e.outcome e.config
  else
    skippedResult (e.config.type_.getD "unknown")

/-- The orchestrator's mutable state: the `results["servers"]` insertion-ordered
mapping (server names are unique keys of the config dict, so appending models
insertion) and the running summary. -/
structure ScanState where
  servers : List (String × ServerResult)
  summary : Summary
deriving DecidableEq, Repr

/-- One iteration of the `scan_all_servers` loop (lines 263-305) for one
server: either the dispatch block raises (`except` path: record an `"error"`
result and bump `failed_servers`, lines 298-305) or the dispatched result is
recorded and folded into the summary (lines 280-296). -/
def scanStep (st : ScanState) (e : ServerEntry) : ScanState :=
  match e.dispatchExc with
  | some msg =>
      { servers := st.servers ++ [(e.name, errorResult msg)]
        summary := { st.summary with failed_servers := st.summary.failed_servers + 1 } }
  | none =>
      let r := dispatch e
      { servers := st.servers ++ [(e.name, r)]
        summary := update_summary st.summary r }

/-- Embeds `MCPSecurityScanner.scan_all_servers` (lines 251-305):
`total_servers` is set to the number of configured servers up front
(line 261), then every server is processed in configuration order. -/
def scan_all_servers (entries : List ServerEntry) : ScanState :=
  entries.foldl scanStep
    { servers := []
      summary := { summaryInit with total_servers := entries.length } }

/-- The terminal result recorded for one server entry: the `"error"` record
when the dispatch block raises, the dispatched result otherwise. -/
def resultOf (e : ServerEntry) : ServerResult :=
  match e.dispatchExc with
  | some msg => errorResult msg
  | none => dispatch e

/-- The per-terminal-result summary fold actually performed by
`scan_all_servers` (lines 282-305): the status-directed counter increments of
lines 283-296, plus the fact that the `except` path (which records a result
of status `"error"`) bumps `failed_servers` (line 305). -/
def foldResult (s : Summary) (r : ServerResult) : Summary :=
  if r.status = "error" then
    { s with failed_servers := s.failed_servers + 1 }
  else
    update_summary s r

/-- Pointwise sum of two summaries; `foldResult` is addition of a per-result
delta, which is what makes the aggregation fold order-independent. -/
def addSummary (a b : Summary) : Summary :=
  { total_servers := a.total_servers + b.total_servers
    scanned_servers := a.scanned_servers + b.scanned_servers
    failed_servers := a.failed_servers + b.failed_servers
    total_tools := a.total_tools + b.total_tools
    safe_tools := a.safe_tools + b.safe_tools
    unsafe_tools := a.unsafe_tools + b.unsafe_tools
    total_findings := a.total_findings + b.total_findings }

/-- The counter increments one terminal result contributes, read off the
branches of `foldResult`. -/
def deltaOf (r : ServerResult) : Summary :=
  if r.status = "error" then
    { summaryInit with failed_servers := 1 }
  else if r.status = "completed" then
    { summaryInit with
      scanned_servers := 1
      total_tools := r.tools.length
      safe_tools := r.tools.countP (fun t => t.is_safe)
      unsafe_tools := r.tools.countP (fun t => !t.is_safe)
      total_findings := (r.tools.map (fun t => t.findings.length)).sum }
  else if r.status = "failed" then
    { summaryInit with failed_servers := 1 }
  else
    summaryInit

/-- The stdio transport strategy raises for this server: the spawned scan call
fails (`ServerUnreachable`/`ProtocolError`, modelled by an `.error` outcome),
the result normalization raises, or the `command` key is missing
(`KeyError('command')`). -/
def stdio_raises (e : ServerEntry) (msg : String) : Prop :=
  e.config.type_ = some "stdio" ∧
    ((e.config.command = none ∧ msg = "'command'") ∨
     (e.config.command ≠ none ∧
       (e.outcome = .error msg ∨
        ∃ raws, e.outcome = .ok raws ∧ process_tool_results raws = .error msg)))

/-- The http transport strategy raises for this server (analogous to
`stdio_raises`, with the `url` key in place of `command`). -/
def http_raises (e : ServerEntry) (msg : String) : Prop :=
  e.config.type_ = some "http" ∧
    ((e.config.url = none ∧ msg = "'url'") ∨
     (e.config.url ≠ none ∧
       (e.outcome = .error msg ∨
        ∃ raws, e.outcome = .ok raws ∧ process_tool_results raws = .error msg)))

/-- The transport strategy invocation for this server raises an exception
whose message is `msg`. -/
def strategyRaises (e : ServerEntry) (msg : String) : Prop :=
  stdio_raises e msg ∨ http_raises e msg

/-- The server's strategy invocation succeeds end to end: a recognized
transport with its required key present, a successful scanner-library call,
and successful result normalization. -/
def scansClean (e : ServerEntry) : Prop :=
  ((e.config.type_ = some "stdio" ∧ e.config.command ≠ none) ∨
   (e.config.type_ = some "http" ∧ e.config.url ≠ none)) ∧
  ∃ raws tools, e.outcome = .ok raws ∧ process_tool_results raws = .ok tools

/-! Concrete sample data, used by the closed witness and counterexample
theorems below: a stdio server exposing one unsafe tool (a single HIGH
finding) and one safe tool, an unreachable http server, a websocket server,
and a server whose dispatch block raises. -/

/-- A raw HIGH finding as an analyzer would emit it. -/
def highFinding : RawFinding :=
  { severity := .enum "HIGH"
    category := some "prompt injection"
    description := some "tool description smuggles instructions"
    summary := none
    threat_names := some ["injection"] }

/-- A raw tool result with one HIGH finding, judged unsafe. -/
def rawToolUnsafe : RawToolResult :=
  { tool_name := "run_command"
    tool_description := "runs a shell command"
    is_safe := false
    status := "completed"
    findings := [highFinding]
    analyzer_results := none }

/-- A raw tool result with no findings, judged safe. -/
def rawToolSafe : RawToolResult :=
  { tool_name := "echo_text"
    tool_description := "echoes text back"
    is_safe := true
    status := "completed"
    findings := []
    analyzer_results := none }

/-- A stdio server config. -/
def stdioCfg : ServerConfig :=
  { type_ := some "stdio", command := some "npx", args := some ["server"]
    url := none, headers := none }

/-- An http server config. -/
def httpCfg : ServerConfig :=
  { type_ := some "http", command := none, args := none
    url := some "https://example.com/mcp", headers := none }

/-- A websocket server config (unsupported transport). -/
def wsCfg : ServerConfig :=
  { type_ := some "websocket", command := none, args := none
    url := some "wss://example.com/mcp", headers := none }

/-- A stdio server whose scan succeeds with the two sample tools. -/
def entryStdioOk : ServerEntry :=
  { name := "local", config := stdioCfg
    outcome := .ok [rawToolUnsafe, rawToolSafe], dispatchExc := none }

/-- A stdio server whose scanner call raises (nonexistent executable). -/
def entryStdioBoom : ServerEntry :=
  { name := "broken", config := stdioCfg
    outcome := .error "spawn failed", dispatchExc := none }

/-- An http server whose scanner call raises (unreachable endpoint). -/
def entryHttpDown : ServerEntry :=
  { name := "remote", config := httpCfg
    outcome := .error "connection refused", dispatchExc := none }

/-- A websocket server (scanner would never be called). -/
def entryWs : ServerEntry :=
  { name := "sock", config := wsCfg
    outcome := .ok [], dispatchExc := none }

/-- A server whose dispatch block itself raises. -/
def entryDispatchBoom : ServerEntry :=
  { name := "weird", config := stdioCfg
    outcome := .ok [], dispatchExc := some "string indices must be integers" }

/-- The spec's end-to-end scenario: one stdio server with two tools (one HIGH
finding on the unsafe one) and one unreachable http server. -/
def endToEndEntries : List ServerEntry :=
  [entryStdioOk, entryHttpDown]

/-- A raw finding with an unrecognized severity value (its `str` form). -/
def weirdFinding : RawFinding :=
  { severity := .raw "MAXIMUM"
    category := none
    description := some "odd finding"
    summary := none
    threat_names := none }

/-- A raw finding lacking `description` but carrying `summary`. -/
def summaryOnlyFinding : RawFinding :=
  { severity := .enum "LOW"
    category := none
    description := none
    summary := some "from summary"
    threat_names := none }

/-- A raw finding carrying both `description` and `summary`. -/
def bothFieldsFinding : RawFinding :=
  { severity := .enum "LOW"
    category := none
    description := some "the description"
    summary := some "ignored summary"
    threat_names := none }

end MCPScan

namespace MCPScan

/-! Helper lemmas about the orchestrator. -/

theorem scan_stdio_server_cases (o : Except String (List RawToolResult))
    (cfg : ServerConfig) :
    (scan_stdio_server o cfg).status = "completed" ∨
      (scan_stdio_server o cfg).status = "failed" := by
  cases hc : cfg.command with
  | none => simp [scan_stdio_server, hc]
  | some c =>
      cases o with
      | error e => simp [scan_stdio_server, hc]
      | ok raws =>
          cases hp : process_tool_results raws with
          | error e => simp [scan_stdio_server, hc, hp]
          | ok tools => simp [scan_stdio_server, hc, hp]

theorem scan_http_server_cases (o : Except String (List RawToolResult))
    (cfg : ServerConfig) :
    (scan_http_server o cfg).status = "completed" ∨
      (scan_http_server o cfg).status = "failed" := by
  cases hc : cfg.url with
  | none => simp [scan_http_server, hc]
  | some c =>
      cases o with
      | error e => simp [scan_http_server, hc]
      | ok raws =>
          cases hp : process_tool_results raws with
          | error e => simp [scan_http_server, hc, hp]
          | ok tools => simp [scan_http_server, hc, hp]

theorem dispatch_status (e : ServerEntry) :
    (dispatch e).status = "completed" ∨ (dispatch e).status = "failed" ∨
      (dispatch e).status = "skipped" := by
  unfold dispatch
  split_ifs with h1 h2
  · rcases scan_stdio_server_cases e.outcome e.config with h | h <;> simp [h]
  · rcases scan_http_server_cases e.outcome e.config with h | h <;> simp [h]
  · simp [skippedResult]

theorem dispatch_status_ne_error (e : ServerEntry) : (dispatch e).status ≠ "error" := by
  rcases dispatch_status e with h | h | h <;> rw [h] <;> simp

theorem resultOf_status (e : ServerEntry) :
    (resultOf e).status = "completed" ∨ (resultOf e).status = "failed" ∨
      (resultOf e).status = "skipped" ∨ (resultOf e).status = "error" := by
  unfold resultOf
  cases e.dispatchExc with
  | none =>
      rcases dispatch_status e with h | h | h <;> simp [h]
  | some msg => simp [errorResult]

theorem scanStep_servers (st : ScanState) (e : ServerEntry) :
    (scanStep st e).servers = st.servers ++ [(e.name, resultOf e)] := by
  unfold scanStep resultOf
  cases e.dispatchExc <;> rfl

theorem scanStep_summary (st : ScanState) (e : ServerEntry) :
    (scanStep st e).summary = foldResult st.summary (resultOf e) := by
  unfold scanStep resultOf
  cases e.dispatchExc with
  | some msg => simp [foldResult, errorResult]
  | none => simp [foldResult, dispatch_status_ne_error e]

theorem foldl_scanStep_servers (entries : List ServerEntry) :
    ∀ st : ScanState, (entries.foldl scanStep st).servers =
      st.servers ++ entries.map (fun e => (e.name, resultOf e)) := by
  induction entries with
  | nil => intro st; simp
  | cons e es ih =>
      intro st
      rw [List.foldl_cons, ih, scanStep_servers]
      simp

theorem foldl_scanStep_summary (entries : List ServerEntry) :
    ∀ st : ScanState, (entries.foldl scanStep st).summary =
      (entries.map resultOf).foldl foldResult st.summary := by
  induction entries with
  | nil => intro st; rfl
  | cons e es ih =>
      intro st
      rw [List.foldl_cons, ih, scanStep_summary, List.map_cons, List.foldl_cons]

theorem scan_all_servers_servers (entries : List ServerEntry) :
    (scan_all_servers entries).servers = entries.map (fun e => (e.name, resultOf e)) := by
  unfold scan_all_servers
  rw [foldl_scanStep_servers]
  simp

theorem scan_all_servers_summary (entries : List ServerEntry) :
    (scan_all_servers entries).summary =
      (entries.map resultOf).foldl foldResult
        { summaryInit with total_servers := entries.length } := by
  unfold scan_all_servers
  rw [foldl_scanStep_summary]

theorem foldResult_eq_add (s : Summary) (r : ServerResult) :
    foldResult s r = addSummary s (deltaOf r) := by
  unfold foldResult update_summary deltaOf addSummary summaryInit
  split_ifs <;> rfl

theorem addSummary_right_comm (s a b : Summary) :
    addSummary (addSummary s a) b = addSummary (addSummary s b) a := by
  unfold addSummary
  congr 1 <;> apply Nat.add_right_comm

theorem foldResult_right_comm (s : Summary) (a b : ServerResult) :
    foldResult (foldResult s a) b = foldResult (foldResult s b) a := by
  simp only [foldResult_eq_add]
  exact addSummary_right_comm s (deltaOf a) (deltaOf b)

theorem foldResult_fields (s : Summary) (r : ServerResult) :
    (foldResult s r).total_servers = s.total_servers ∧
    (foldResult s r).scanned_servers =
      s.scanned_servers + (if r.status = "completed" then 1 else 0) ∧
    (foldResult s r).failed_servers =
      s.failed_servers + (if r.status = "failed" ∨ r.status = "error" then 1 else 0) ∧
    (foldResult s r).total_tools =
      s.total_tools + (if r.status = "completed" then r.tools.length else 0) ∧
    (foldResult s r).safe_tools =
      s.safe_tools + (if r.status = "completed" then r.tools.countP (fun t => t.is_safe) else 0) ∧
    (foldResult s r).unsafe_tools =
      s.unsafe_tools + (if r.status = "completed" then r.tools.countP (fun t => !t.is_safe) else 0) ∧
    (foldResult s r).total_findings =
      s.total_findings +
        (if r.status = "completed" then (r.tools.map (fun t => t.findings.length)).sum else 0) := by
  by_cases h1 : r.status = "completed"
  · simp [foldResult, update_summary, h1]
  · by_cases h2 : r.status = "failed"
    · simp [foldResult, update_summary, h1, h2]
    · by_cases h3 : r.status = "error"
      · simp [foldResult, update_summary, h1, h2, h3]
      · simp [foldResult, update_summary, h1, h2, h3]

theorem foldl_foldResult_fields (R : List ServerResult) :
    ∀ s : Summary,
      (R.foldl foldResult s).total_servers = s.total_servers ∧
      (R.foldl foldResult s).scanned_servers =
        s.scanned_servers + R.countP (fun r => decide (r.status = "completed")) ∧
      (R.foldl foldResult s).failed_servers =
        s.failed_servers +
          R.countP (fun r => decide (r.status = "failed") || decide (r.status = "error")) ∧
      (R.foldl foldResult s).total_tools =
        s.total_tools +
          ((R.filter (fun r => decide (r.status = "completed"))).map
            (fun r => r.tools.length)).sum ∧
      (R.foldl foldResult s).safe_tools =
        s.safe_tools +
          ((R.filter (fun r => decide (r.status = "completed"))).map
            (fun r => r.tools.countP (fun t => t.is_safe))).sum ∧
      (R.foldl foldResult s).unsafe_tools =
        s.unsafe_tools +
          ((R.filter (fun r => decide (r.status = "completed"))).map
            (fun r => r.tools.countP (fun t => !t.is_safe))).sum ∧
      (R.foldl foldResult s).total_findings =
        s.total_findings +
          ((R.filter (fun r => decide (r.status = "completed"))).map
            (fun r => (r.tools.map (fun t => t.findings.length)).sum)).sum := by
  induction R with
  | nil => intro s; simp
  | cons r R ih =>
      intro s
      obtain ⟨i1, i2, i3, i4, i5, i6, i7⟩ := ih (foldResult s r)
      obtain ⟨p1, p2, p3, p4, p5, p6, p7⟩ := foldResult_fields s r
      refine ⟨?_, ?_, ?_, ?_, ?_, ?_, ?_⟩ <;>
        simp only [List.foldl_cons, List.countP_cons, List.filter_cons, i1, i2, i3, i4, i5,
          i6, i7, p1, p2, p3, p4, p5, p6, p7] <;>
        by_cases h1 : r.status = "completed" <;>
        by_cases h2 : r.status = "failed" <;>
        by_cases h3 : r.status = "error" <;>
        simp [h1, h2, h3] <;> omega

theorem countP_safe_add_unsafe (ts : List ToolData) :
    ts.countP (fun t => t.is_safe) + ts.countP (fun t => !t.is_safe) = ts.length := by
  induction ts with
  | nil => rfl
  | cons t ts ih =>
      cases hs : t.is_safe <;> simp [List.countP_cons, hs] <;> omega

theorem sum_safe_add_unsafe (L : List ServerResult) :
    (L.map (fun r => r.tools.countP (fun t => t.is_safe))).sum +
      (L.map (fun r => r.tools.countP (fun t => !t.is_safe))).sum =
      (L.map (fun r => r.tools.length)).sum := by
  induction L with
  | nil => rfl
  | cons r L ih =>
      simp only [List.map_cons, List.sum_cons]
      have := countP_safe_add_unsafe r.tools
      omega

theorem status_partition (L : List ServerResult)
    (h : ∀ r ∈ L, r.status = "completed" ∨ r.status = "failed" ∨
      r.status = "skipped" ∨ r.status = "error") :
    L.countP (fun r => decide (r.status = "completed")) +
      L.countP (fun r => decide (r.status = "failed") || decide (r.status = "error")) +
      L.countP (fun r => decide (r.status = "skipped")) = L.length := by
  induction L with
  | nil => rfl
  | cons r L ih =>
      have hr := h r (List.mem_cons_self r L)
      have ih' := ih (fun x hx => h x (List.mem_cons_of_mem r hx))
      rcases hr with h1 | h1 | h1 | h1 <;> simp [List.countP_cons, h1] <;> omega

theorem resultOf_excRaised (e : ServerEntry) (msg : String)
    (hexc : e.dispatchExc = some msg) : resultOf e = errorResult msg := by
  simp [resultOf, hexc]

theorem resultOf_raises (e : ServerEntry) (msg : String)
    (hexc : e.dispatchExc = none) (h : strategyRaises e msg) :
    (resultOf e).status = "failed" ∧ (resultOf e).error = some msg ∧
      (resultOf e).tools = [] := by
  rcases h with ⟨ht, hcase⟩ | ⟨ht, hcase⟩
  · rcases hcase with ⟨hc, hmsg⟩ | ⟨hc, hout⟩
    · subst hmsg
      simp [resultOf, hexc, dispatch, ht, scan_stdio_server, hc]
    · obtain ⟨c, hc'⟩ := Option.ne_none_iff_exists'.mp hc
      rcases hout with hout | ⟨raws, hok, hperr⟩
      · simp [resultOf, hexc, dispatch, ht, scan_stdio_server, hc', hout]
      · simp [resultOf, hexc, dispatch, ht, scan_stdio_server, hc', hok, hperr]
  · rcases hcase with ⟨hc, hmsg⟩ | ⟨hc, hout⟩
    · subst hmsg
      simp [resultOf, hexc, dispatch, ht, scan_http_server, hc]
    · obtain ⟨c, hc'⟩ := Option.ne_none_iff_exists'.mp hc
      rcases hout with hout | ⟨raws, hok, hperr⟩
      · simp [resultOf, hexc, dispatch, ht, scan_http_server, hc', hout]
      · simp [resultOf, hexc, dispatch, ht, scan_http_server, hc', hok, hperr]

theorem resultOf_clean (e : ServerEntry)
    (hexc : e.dispatchExc = none) (h : scansClean e) :
    (resultOf e).status = "completed" := by
  obtain ⟨hk, raws, tools, hok, hproc⟩ := h
  rcases hk with ⟨ht, hc⟩ | ⟨ht, hc⟩
  · obtain ⟨c, hc'⟩ := Option.ne_none_iff_exists'.mp hc
    simp [resultOf, hexc, dispatch, ht, scan_stdio_server, hc', hok, hproc]
  · obtain ⟨c, hc'⟩ := Option.ne_none_iff_exists'.mp hc
    simp [resultOf, hexc, dispatch, ht, scan_http_server, hc', hok, hproc]

theorem scan_servers_getD (entries : List ServerEntry) (i : Nat)
    (hi : i < entries.length) (dflt : String × ServerResult) :
    (scan_all_servers entries).servers.getD i dflt =
      ((entries.get ⟨i, hi⟩).name, resultOf (entries.get ⟨i, hi⟩)) := by
  rw [scan_all_servers_servers]
  rw [List.getD_eq_getElem _ dflt (by simpa using hi)]
  simp

theorem scan_servers_snd (entries : List ServerEntry) :
    (scan_all_servers entries).servers.map Prod.snd = entries.map resultOf := by
  rw [scan_all_servers_servers, List.map_map]
  rfl

/-- C1: failure isolation — in every run, a server whose transport strategy
invocation raises an exception is recorded with status `"failed"`, the
exception's message and an empty tool list; every server of the configuration
is still processed (one result per configured server, in order), and any other
server whose scan succeeds end to end is recorded with status `"completed"`. -/
theorem C1_failure_isolation (entries : List ServerEntry) (i : Nat)
    (hi : i < entries.length) (msg : String)
    (hexc : (entries.get ⟨i, hi⟩).dispatchExc = none)
    (hraise : strategyRaises (entries.get ⟨i, hi⟩) msg) :
    (scan_all_servers entries).servers.length = entries.length ∧
    (∀ dflt : String × ServerResult,
      ((scan_all_servers entries).servers.getD i dflt).1 = (entries.get ⟨i, hi⟩).name ∧
      ((scan_all_servers entries).servers.getD i dflt).2.status = "failed" ∧
      ((scan_all_servers entries).servers.getD i dflt).2.error = some msg ∧
      ((scan_all_servers entries).servers.getD i dflt).2.tools = []) ∧
    (∀ (j : Nat) (hj : j < entries.length) (dflt : String × ServerResult),
      (entries.get ⟨j, hj⟩).dispatchExc = none →
      scansClean (entries.get ⟨j, hj⟩) →
      ((scan_all_servers entries).servers.getD j dflt).2.status = "completed") := by
  refine ⟨?_, ?_, ?_⟩
  · rw [scan_all_servers_servers]; simp
  · intro dflt
    rw [scan_servers_getD entries i hi dflt]
    obtain ⟨h1, h2, h3⟩ := resultOf_raises _ msg hexc hraise
    exact ⟨rfl, h1, h2, h3⟩
  · intro j hj dflt hexc' hclean
    rw [scan_servers_getD entries j hj dflt]
    exact resultOf_clean _ hexc' hclean

/-- Witness for C1: a run with a broken stdio server followed by a healthy
stdio server — the broken one is recorded `"failed"` with the exception
message, the healthy one still reaches `"completed"`. -/
theorem C1_witness :
    (scan_all_servers [entryStdioBoom, entryStdioOk]).servers.length = 2 ∧
    ((scan_all_servers [entryStdioBoom, entryStdioOk]).servers.getD 0
      ("", errorResult "")).2.status = "failed" ∧
    ((scan_all_servers [entryStdioBoom, entryStdioOk]).servers.getD 0
      ("", errorResult "")).2.error = some "spawn failed" ∧
    ((scan_all_servers [entryStdioBoom, entryStdioOk]).servers.getD 1
      ("", errorResult "")).2.status = "completed" := by
  obtain ⟨h1, h2, h3⟩ := C1_failure_isolation [entryStdioBoom, entryStdioOk] 0 (by decide)
    "spawn failed" rfl (Or.inl ⟨rfl, Or.inr ⟨by decide, Or.inl rfl⟩⟩)
  exact ⟨h1, (h2 _).2.1, (h2 _).2.2.1,
    h3 1 (by decide) _ rfl ⟨Or.inl ⟨rfl, by decide⟩, _, _, rfl, rfl⟩⟩

/-- C4: after a run over N configured servers, `total_servers = N`,
`safe_tools + unsafe_tools = total_tools`, `total_tools` is the sum of tool
counts over the `"completed"` results, `scanned_servers + failed_servers`
plus the number of `"skipped"` results equals N, and in particular
`scanned_servers + failed_servers ≤ total_servers`. -/
theorem C4_summary_invariants (entries : List ServerEntry) :
    (scan_all_servers entries).summary.total_servers = entries.length ∧
    (scan_all_servers entries).summary.safe_tools +
      (scan_all_servers entries).summary.unsafe_tools =
      (scan_all_servers entries).summary.total_tools ∧
    (scan_all_servers entries).summary.total_tools =
      ((((scan_all_servers entries).servers.map Prod.snd).filter
        (fun r => decide (r.status = "completed"))).map (fun r => r.tools.length)).sum ∧
    (scan_all_servers entries).summary.scanned_servers +
      (scan_all_servers entries).summary.failed_servers +
      ((scan_all_servers entries).servers.map Prod.snd).countP
        (fun r => decide (r.status = "skipped")) = entries.length ∧
    (scan_all_servers entries).summary.scanned_servers +
      (scan_all_servers entries).summary.failed_servers ≤
      (scan_all_servers entries).summary.total_servers := by
  rw [scan_all_servers_summary, scan_servers_snd]
  obtain ⟨f1, f2, f3, f4, f5, f6, f7⟩ :=
    foldl_foldResult_fields (entries.map resultOf)
      { summaryInit with total_servers := entries.length }
  have hlenR : (entries.map resultOf).length = entries.length := by simp
  have hpart := status_partition (entries.map resultOf) (by
    intro r hr
    obtain ⟨e, _, rfl⟩ := List.mem_map.mp hr
    exact resultOf_status e)
  have hsum := sum_safe_add_unsafe
    ((entries.map resultOf).filter (fun r => decide (r.status = "completed")))
  refine ⟨?_, ?_, ?_, ?_, ?_⟩
  · rw [f1]
  · rw [f5, f6, f4]
    simp only [summaryInit, Nat.zero_add]
    omega
  · rw [f4]
    simp [summaryInit]
  · rw [f2, f3]
    simp only [summaryInit, Nat.zero_add]
    omega
  · rw [f1, f2, f3]
    simp only [summaryInit, Nat.zero_add]
    omega

/-- C6: a server whose declared transport type is not `"stdio"` or `"http"`
yields the `"skipped"` result with the explanatory error message, the result
does not depend on what any strategy invocation would have returned (no
strategy is invoked), and folding the result changes no summary counter. -/
theorem C6_unsupported_type_skipped (e : ServerEntry) (t : String)
    (ht : e.config.type_.getD "unknown" = t)
    (h1 : t ≠ "stdio") (h2 : t ≠ "http")
    (hexc : e.dispatchExc = none) :
    resultOf e = skippedResult t ∧
    (∀ o : Except String (List RawToolResult),
      resultOf { e with outcome := o } = skippedResult t) ∧
    (resultOf e).status = "skipped" ∧
    (resultOf e).error = some ("Unsupported server type: " ++ t) ∧
    (∀ s : Summary, foldResult s (resultOf e) = s) := by
  have key : ∀ o, resultOf { e with outcome := o } = skippedResult t := by
    intro o
    simp [resultOf, hexc, dispatch, ht, h1, h2]
  have he : resultOf e = skippedResult t := key e.outcome
  refine ⟨he, key, ?_, ?_, ?_⟩
  · rw [he]; rfl
  · rw [he]; rfl
  · intro s
    rw [he]
    simp [foldResult, update_summary, skippedResult]

/-- Witness for C6: the websocket server is skipped, its result is the same
whatever the scanner call would have returned, and folding it leaves the
summary unchanged. -/
theorem C6_witness :
    resultOf entryWs = skippedResult "websocket" ∧
    resultOf { entryWs with outcome := .error "never invoked" } = skippedResult "websocket" ∧
    foldResult summaryInit (resultOf entryWs) = summaryInit := by
  obtain ⟨ha, hb, _, _, hc⟩ :=
    C6_unsupported_type_skipped entryWs "websocket" rfl (by decide) (by decide) rfl
  exact ⟨ha, hb (.error "never invoked"), hc summaryInit⟩

/-- C7: the run's summary is the fold of the per-server terminal results, and
that fold is permutation-invariant — folding any permutation of the same
result list from the same initial summary yields the same final summary. -/
theorem C7_fold_permutation_invariant :
    (∀ entries : List ServerEntry,
      (scan_all_servers entries).summary =
        (entries.map resultOf).foldl foldResult
          { summaryInit with total_servers := entries.length }) ∧
    (∀ (s : Summary) (l l' : List ServerResult), l.Perm l' →
      l.foldl foldResult s = l'.foldl foldResult s) := by
  refine ⟨scan_all_servers_summary, ?_⟩
  intro s l l' p
  exact p.foldl_eq' (fun x _ y _ z => foldResult_right_comm z x y) s

/-- Witness for C7: folding the two end-to-end results in either order gives
the same summary. -/
theorem C7_witness :
    [resultOf entryStdioOk, resultOf entryHttpDown].foldl foldResult summaryInit =
      [resultOf entryHttpDown, resultOf entryStdioOk].foldl foldResult summaryInit :=
  C7_fold_permutation_invariant.2 summaryInit _ _ (by decide)

/-- C10: a server whose dispatch block itself raises (outside the strategy
functions) is recorded with the status-`"error"` result carrying the
exception's message and an empty tool list, and `failed_servers` counts
exactly the results whose status is `"failed"` or `"error"`. -/
theorem C10_dispatch_error_status (entries : List ServerEntry) (i : Nat)
    (hi : i < entries.length) (msg : String)
    (hexc : (entries.get ⟨i, hi⟩).dispatchExc = some msg) :
    (∀ dflt : String × ServerResult,
      (scan_all_servers entries).servers.getD i dflt =
        ((entries.get ⟨i, hi⟩).name, errorResult msg) ∧
      ((scan_all_servers entries).servers.getD i dflt).2.status = "error" ∧
      ((scan_all_servers entries).servers.getD i dflt).2.tools = []) ∧
    (scan_all_servers entries).summary.failed_servers =
      ((scan_all_servers entries).servers.map Prod.snd).countP
        (fun r => decide (r.status = "failed") || decide (r.status = "error")) := by
  constructor
  · intro dflt
    rw [scan_servers_getD entries i hi dflt, resultOf_excRaised _ msg hexc]
    exact ⟨rfl, rfl, rfl⟩
  · rw [scan_all_servers_summary, scan_servers_snd]
    obtain ⟨_, _, f3, _⟩ :=
      foldl_foldResult_fields (entries.map resultOf)
        { summaryInit with total_servers := entries.length }
    rw [f3]
    simp [summaryInit]

/-- Witness for C10: a run whose first server's dispatch raises records the
`"error"` result for it and counts it among `failed_servers`. -/
theorem C10_witness :
    (scan_all_servers [entryDispatchBoom, entryStdioOk]).servers.getD 0
      ("", errorResult "") = ("weird", errorResult "string indices must be integers") ∧
    (scan_all_servers [entryDispatchBoom, entryStdioOk]).summary.failed_servers =
      ((scan_all_servers [entryDispatchBoom, entryStdioOk]).servers.map Prod.snd).countP
        (fun r => decide (r.status = "failed") || decide (r.status = "error")) := by
  obtain ⟨h1, h2⟩ := C10_dispatch_error_status [entryDispatchBoom, entryStdioOk] 0
    (by decide) "string indices must be integers" rfl
  exact ⟨(h1 _).1, h2⟩

/-- Counterexample for C2: a raw finding whose severity is an unrecognized
bare value (`str` form `"MAXIMUM"`) normalizes to the severity string
`"MAXIMUM"`, not to `"INFO"` — the unparsed value is passed through. -/
theorem C2_counterexample :
    normalizeFinding weirdFinding =
      .ok { severity := "MAXIMUM", category := none, description := "odd finding",
            threat_names := [] } ∧
    ("MAXIMUM" : String) ≠ "INFO" :=
  ⟨rfl, by decide⟩

/-- C2 as amended: the normalizer never fails on a severity — an enum-like
severity contributes its `.value`, and an unrecognized severity is passed
through as its `str(...)` rendering; no INFO defaulting occurs. -/
theorem C2_severity_passthrough (sv : String) (cat : Option String) (d : String)
    (sm : Option String) (tn : Option (List String)) :
    normalizeFinding
        { severity := .raw sv, category := cat, description := some d,
          summary := sm, threat_names := tn } =
      .ok { severity := sv, category := cat, description := d,
            threat_names := tn.getD [] } ∧
    normalizeFinding
        { severity := .enum sv, category := cat, description := some d,
          summary := sm, threat_names := tn } =
      .ok { severity := sv, category := cat, description := d,
            threat_names := tn.getD [] } :=
  ⟨rfl, rfl⟩

/-- Counterexample for C3: in the spec's own end-to-end scenario (which does
record one HIGH finding, `total_findings = 1`), the summary has no
`high_count` entry at all — the summary keeps no severity histogram. -/
theorem C3_counterexample :
    (summary_pairs (scan_all_servers endToEndEntries).summary).lookup "high_count" = none ∧
    (scan_all_servers endToEndEntries).summary.total_findings = 1 := by
  exact ⟨rfl, by decide⟩

/-- C3 as amended: the summary consists of exactly the seven counters of the
source's summary dict (no per-severity histogram buckets), findings contribute
only to `total_findings`, and the end-to-end scenario yields
`total_servers=2, scanned_servers=1, failed_servers=1, total_tools=2,
safe_tools=1, unsafe_tools=1, total_findings=1`. -/
theorem C3_no_severity_histogram :
    (∀ s : Summary,
      (summary_pairs s).map Prod.fst =
        ["total_servers", "scanned_servers", "failed_servers", "total_tools",
         "safe_tools", "unsafe_tools", "total_findings"] ∧
      (summary_pairs s).lookup "high_count" = none) ∧
    (scan_all_servers endToEndEntries).summary =
      { total_servers := 2, scanned_servers := 1, failed_servers := 1,
        total_tools := 2, safe_tools := 1, unsafe_tools := 1, total_findings := 1 } := by
  refine ⟨fun s => ⟨rfl, rfl⟩, by decide⟩

/-- Counterexample for C5: for the header value `"Bearer aBearer b"`
(prefix `"Bearer "` followed by the token `"aBearer b"`), the code extracts
`"ab"` — `str.replace` removed the second, interior occurrence of
`"Bearer "` as well — not the prefix-stripped token `"aBearer b"`. -/
theorem C5_counterexample :
    ("Bearer aBearer b" : String) = "Bearer " ++ "aBearer b" ∧
    extract_bearer_auth [("Authorization", "Bearer aBearer b")] = some "ab" ∧
    ("ab" : String) ≠ "aBearer b" :=
  ⟨by decide, by decide, by decide⟩

/-- C5 as amended: bearer authentication is used iff the header map has an
`Authorization` value starting with `"Bearer "`; the extracted token is the
header value with every occurrence of the substring `"Bearer "` removed
(Python `str.replace`), which equals plain prefix removal only when the
remainder contains no further `"Bearer "`. -/
theorem C5_bearer_extraction (headers : List (String × String)) :
    (extract_bearer_auth headers = none ↔
      headers.lookup "Authorization" = none ∨
      ∃ v, headers.lookup "Authorization" = some v ∧ pyStartsWith v "Bearer " = false) ∧
    (∀ v, headers.lookup "Authorization" = some v → pyStartsWith v "Bearer " = true →
      extract_bearer_auth headers = some (pyReplace v "Bearer " "")) := by
  constructor
  · cases hl : headers.lookup "Authorization" with
    | none => simp [extract_bearer_auth, hl]
    | some v =>
        cases hs : pyStartsWith v "Bearer " with
        | false => simp [extract_bearer_auth, hl, hs]
        | true => simp [extract_bearer_auth, hl, hs]
  · intro v hl hs
    simp [extract_bearer_auth, hl, hs]

/-- Witness for C5 (amended): a well-formed bearer header is recognized and
its token extracted via the replace-all rule. -/
theorem C5_witness :
    extract_bearer_auth [("Authorization", "Bearer tok123")] =
      some (pyReplace "Bearer tok123" "Bearer " "") :=
  (C5_bearer_extraction _).2 "Bearer tok123" rfl (by decide)

/-- C8: the normalizer prefers the `description` field and falls back to
`summary` when `description` is absent. -/
theorem C8_description_fallback (f : RawFinding) :
    (∀ s, f.description = none → f.summary = some s →
      ∃ fd, normalizeFinding f = .ok fd ∧ fd.description = s) ∧
    (∀ d, f.description = some d →
      ∃ fd, normalizeFinding f = .ok fd ∧ fd.description = d) := by
  constructor
  · intro s h1 h2
    exact ⟨{ severity := normalizeSeverity f.severity, category := f.category,
             description := s, threat_names := f.threat_names.getD [] },
           by simp [normalizeFinding, h1, h2], rfl⟩
  · intro d h1
    exact ⟨{ severity := normalizeSeverity f.severity, category := f.category,
             description := d, threat_names := f.threat_names.getD [] },
           by simp [normalizeFinding, h1], rfl⟩

/-- Witness for C8: a summary-only finding normalizes with the summary text as
its description; a finding with both fields keeps the description text. -/
theorem C8_witness :
    (∃ fd, normalizeFinding summaryOnlyFinding = .ok fd ∧
      fd.description = "from summary") ∧
    (∃ fd, normalizeFinding bothFieldsFinding = .ok fd ∧
      fd.description = "the description") :=
  ⟨(C8_description_fallback summaryOnlyFinding).1 "from summary" rfl rfl,
   (C8_description_fallback bothFieldsFinding).2 "the description" rfl⟩

end MCPScan

namespace SkillScan

/-- C9: the pass/fail signal is the derived boolean
`critical_count > 0 or high_count > 0` — it is true iff at least one CRITICAL
or HIGH finding was recorded, and with `--fail-on-findings` the exit code is 1
iff that flag was requested and such a finding exists. -/
theorem C9_exit_signal (findings : List Severity) (failOnFindings : Bool) :
    (has_critical_or_high (critical_count findings) (high_count findings) = true ↔
      ∃ sv ∈ findings, sv = Severity.CRITICAL ∨ sv = Severity.HIGH) ∧
    (fail_exit_code failOnFindings
        (has_critical_or_high (critical_count findings) (high_count findings)) = 1 ↔
      failOnFindings = true ∧
        ∃ sv ∈ findings, sv = Severity.CRITICAL ∨ sv = Severity.HIGH) := by
  have hiff : has_critical_or_high (critical_count findings) (high_count findings) = true ↔
      ∃ sv ∈ findings, sv = Severity.CRITICAL ∨ sv = Severity.HIGH := by
    unfold has_critical_or_high critical_count high_count
    rw [Bool.or_eq_true, decide_eq_true_eq, decide_eq_true_eq]
    constructor
    · rintro (h | h)
      · obtain ⟨a, ha, hp⟩ := List.countP_pos_iff.mp h
        exact ⟨a, ha, Or.inl (by simpa using hp)⟩
      · obtain ⟨a, ha, hp⟩ := List.countP_pos_iff.mp h
        exact ⟨a, ha, Or.inr (by simpa using hp)⟩
    · rintro ⟨a, ha, h | h⟩
      · exact Or.inl (List.countP_pos_iff.mpr ⟨a, ha, by simpa using h⟩)
      · exact Or.inr (List.countP_pos_iff.mpr ⟨a, ha, by simpa using h⟩)
  refine ⟨hiff, ?_⟩
  rw [← hiff]
  cases failOnFindings <;>
    cases hX : has_critical_or_high (critical_count findings) (high_count findings) <;>
      simp [fail_exit_code, hX]

end SkillScan
